import Mathlib

/-!
Verification of the progress-evaluation core of the Notendashboard
application (src/main.py): the credit-weighted grade average, the
per-semester goal evaluation, the overall-goal progress percentage and
the semester-completion notification step.

Modelling conventions:
- Python floats (grades, target grades) are modelled as exact rationals ℚ.
- Calendar time is a rational coordinate measured in days: `datetime.now()`
  becomes a parameter `now : ℚ`, a parsed `target_date` becomes a rational
  day coordinate, and `timedelta(days = n)` becomes the rational `n`.
- The stored `target_date` string is modelled post-parse: `some d` when
  `datetime.strptime(s, "%Y-%m-%d")` succeeds and `none` when it raises
  `ValueError` (a malformed string).
- `session[f"semester_{id}_abgeschlossen"]` is modelled as an explicit
  boolean `flag` threaded through the completion step.
-/

namespace Notendashboard

/-- A course module (source: `class Module`, src/main.py:115-135). `ects` is
the credit weight (`db.Integer`; the input forms at src/main.py:347 and
src/main.py:375 only ever store values with `ects > 0`, and the spec
additionally tolerates `0`, so it is modelled as ℕ); `grade` is the optional
grade (`db.Float`, `None` ↦ `none`). -/
structure Module where
  name : String
  ects : ℕ
  grade : Option ℚ
deriving DecidableEq

/-- An academic term (source: `class Semester`, src/main.py:91-113), with
`target_date` modelled post-parse as described in the file header. -/
structure Term where
  name : String
  target_date : Option ℚ
  target_grade : ℚ
  modules : List Module
deriving DecidableEq

/-- One iteration of the loop body of `calculate_weighted_average`
(src/main.py:221-224): a graded module adds `grade * ects` to the running
`weighted_sum` and `ects` to the running `total_ects`; an ungraded module is
skipped. -/
def cwaLoop (acc : ℚ × ℕ) (m : Module) : ℚ × ℕ :=
  match m.grade with
  | some g => (acc.1 + g * (m.ects : ℚ), acc.2 + m.ects)
  | none => acc

/-- Source: `calculate_weighted_average(modules)` (src/main.py:210-228).
Returns `weighted_sum / total_ects` when `total_ects > 0`, else `None`. -/
def calculate_weighted_average (modules : List Module) : Option ℚ :=
  let acc := modules.foldl cwaLoop (0, 0)
  if 0 < acc.2 then some (acc.1 / (acc.2 : ℚ)) else none

/-- The modules that carry a grade (the `if module.grade is not None`
filter of the source loop). -/
def gradedModules (modules : List Module) : List Module :=
  modules.filter (fun m => m.grade.isSome)

/-- Spec-side total credit weight: Σ weight_i over the graded modules. -/
def gradedEcts (modules : List Module) : ℕ :=
  ((gradedModules modules).map Module.ects).sum

/-- Spec-side weighted sum: Σ (grade_i × weight_i) over the graded modules. -/
def gradedWeightedSum (modules : List Module) : ℚ :=
  ((gradedModules modules).map (fun m => m.grade.getD 0 * (m.ects : ℚ))).sum

theorem foldl_cwaLoop (modules : List Module) :
    ∀ a : ℚ, ∀ b : ℕ,
      modules.foldl cwaLoop (a, b) =
        (a + gradedWeightedSum modules, b + gradedEcts modules) := by
  induction modules with
  | nil => intro a b; simp [gradedWeightedSum, gradedEcts, gradedModules]
  | cons m ms ih =>
    intro a b
    cases h : m.grade with
    | none =>
      simp only [List.foldl_cons, cwaLoop, h]
      rw [ih]
      simp [gradedWeightedSum, gradedEcts, gradedModules, List.filter_cons, h]
    | some g =>
      simp only [List.foldl_cons, cwaLoop, h]
      rw [ih]
      simp only [gradedWeightedSum, gradedEcts, gradedModules, List.filter_cons,
        h, Option.isSome_some, if_pos, List.map_cons, List.sum_cons]
      rw [Prod.mk.injEq]
      exact ⟨by simp; ring, by omega⟩

theorem cwa_eq_formula (modules : List Module) (h : 0 < gradedEcts modules) :
    calculate_weighted_average modules =
      some (gradedWeightedSum modules / (gradedEcts modules : ℚ)) := by
  unfold calculate_weighted_average
  rw [foldl_cwaLoop]
  simp [h]

theorem cwa_eq_none (modules : List Module) (h : gradedEcts modules = 0) :
    calculate_weighted_average modules = none := by
  unfold calculate_weighted_average
  rw [foldl_cwaLoop]
  simp [h]

theorem gradedWeightedSum_cons_none (m : Module) (ms : List Module)
    (h : m.grade = none) : gradedWeightedSum (m :: ms) = gradedWeightedSum ms := by
  simp [gradedWeightedSum, gradedModules, List.filter_cons, h]

theorem gradedWeightedSum_cons_some (m : Module) (ms : List Module) (g : ℚ)
    (h : m.grade = some g) :
    gradedWeightedSum (m :: ms) = g * (m.ects : ℚ) + gradedWeightedSum ms := by
  simp [gradedWeightedSum, gradedModules, List.filter_cons, h]

theorem gradedEcts_cons_none (m : Module) (ms : List Module)
    (h : m.grade = none) : gradedEcts (m :: ms) = gradedEcts ms := by
  simp [gradedEcts, gradedModules, List.filter_cons, h]

theorem gradedEcts_cons_some (m : Module) (ms : List Module) (g : ℚ)
    (h : m.grade = some g) : gradedEcts (m :: ms) = m.ects + gradedEcts ms := by
  simp [gradedEcts, gradedModules, List.filter_cons, h]

theorem bounds_sum (modules : List Module) (lo hi : ℚ)
    (hb : ∀ m ∈ modules, ∀ g : ℚ, m.grade = some g → lo ≤ g ∧ g ≤ hi) :
    lo * (gradedEcts modules : ℚ) ≤ gradedWeightedSum modules ∧
      gradedWeightedSum modules ≤ hi * (gradedEcts modules : ℚ) := by
  induction modules with
  | nil => simp [gradedWeightedSum, gradedEcts, gradedModules]
  | cons m ms ih =>
    have hms : ∀ m' ∈ ms, ∀ g : ℚ, m'.grade = some g → lo ≤ g ∧ g ≤ hi :=
      fun m' hmem => hb m' (List.mem_cons_of_mem m hmem)
    obtain ⟨ih1, ih2⟩ := ih hms
    cases h : m.grade with
    | none =>
      rw [gradedWeightedSum_cons_none m ms h, gradedEcts_cons_none m ms h]
      exact ⟨ih1, ih2⟩
    | some g =>
      obtain ⟨hg1, hg2⟩ := hb m (List.mem_cons_self m ms) g h
      have he : (0 : ℚ) ≤ (m.ects : ℚ) := Nat.cast_nonneg _
      rw [gradedWeightedSum_cons_some m ms g h, gradedEcts_cons_some m ms g h]
      push_cast
      constructor
      · rw [mul_add]
        exact add_le_add (mul_le_mul_of_nonneg_right hg1 he) ih1
      · rw [mul_add]
        exact add_le_add (mul_le_mul_of_nonneg_right hg2 he) ih2

/-- The two example modules of the C5 scenario:
credits 6 / grade 1.7 and credits 6 / grade 2.3. -/
def exampleModules : List Module :=
  [⟨"Mathematik 1", 6, some (17 / 10)⟩, ⟨"Informatik 1", 6, some (23 / 10)⟩]

theorem exampleModules_avg : calculate_weighted_average exampleModules = some 2 := by
  rw [cwa_eq_formula exampleModules (by decide)]
  simp only [exampleModules, gradedWeightedSum, gradedEcts, gradedModules,
    List.filter_cons, List.filter_nil, Option.isSome_some, if_pos, List.map_cons,
    List.map_nil, List.sum_cons, List.sum_nil, Option.getD_some]
  norm_num

/-- C5: for every module list whose graded modules have positive total
credit weight, `calculate_weighted_average` returns
Σ (grade_i × weight_i) / Σ weight_i over the graded modules; and on the
scenario modules (credits 6 / grade 1.7, credits 6 / grade 2.3) it returns
exactly 2. -/
theorem weighted_average_formula :
    (∀ modules : List Module, 0 < gradedEcts modules →
        calculate_weighted_average modules =
          some (gradedWeightedSum modules / (gradedEcts modules : ℚ))) ∧
      calculate_weighted_average exampleModules = some 2 := by
  exact ⟨fun modules h => cwa_eq_formula modules h, exampleModules_avg⟩

/-- Witness for C5 at the concrete scenario modules. -/
theorem weighted_average_formula_witness :
    calculate_weighted_average exampleModules =
      some (gradedWeightedSum exampleModules / (gradedEcts exampleModules : ℚ)) :=
  weighted_average_formula.1 exampleModules (by decide)

/-- C6: when no module carries a grade, or the total credit weight of the
graded modules is zero, `calculate_weighted_average` returns `none`; in
particular a single graded module with credits 0 yields `none`. The source
guards the division by `if total_ects > 0` (src/main.py:225), so no division
by zero is ever performed; the embedding is a total function, modelling that
no exception is raised. -/
theorem weighted_average_absent :
    (∀ modules : List Module,
        ((∀ m ∈ modules, m.grade = none) ∨ gradedEcts modules = 0) →
        calculate_weighted_average modules = none) ∧
      ∀ (nm : String) (g : ℚ), calculate_weighted_average [⟨nm, 0, some g⟩] = none := by
  constructor
  · intro modules h
    rcases h with h | h
    · refine cwa_eq_none modules ?_
      have hfil : gradedModules modules = [] := by
        simp only [gradedModules, List.filter_eq_nil_iff]
        intro m hm
        simp [h m hm]
      simp [gradedEcts, hfil]
    · exact cwa_eq_none modules h
  · intro nm g
    exact cwa_eq_none [⟨nm, 0, some g⟩] rfl

/-- Witness for C6 at a concrete ungraded module list. -/
theorem weighted_average_absent_witness :
    calculate_weighted_average [⟨"Mathematik 1", 6, none⟩] = none :=
  weighted_average_absent.1 [⟨"Mathematik 1", 6, none⟩] (Or.inl (by decide))

/-- C8: whenever `calculate_weighted_average` returns a value, that value
lies between any lower bound and any upper bound of the grades of the graded
modules; instantiating the bounds with the minimum and maximum of the
contributing grades (which bound every contributing grade) gives exactly the
weighted-mean boundedness of the claim. A returned value forces
`total_ects > 0` (src/main.py:225), which is the claim's positivity
hypothesis. -/
theorem weighted_average_bounds (modules : List Module) (q lo hi : ℚ)
    (hq : calculate_weighted_average modules = some q)
    (hb : ∀ m ∈ modules, ∀ g : ℚ, m.grade = some g → lo ≤ g ∧ g ≤ hi) :
    lo ≤ q ∧ q ≤ hi := by
  rcases Nat.eq_zero_or_pos (gradedEcts modules) with hE | hE
  · rw [cwa_eq_none modules hE] at hq
    exact absurd hq (by simp)
  · rw [cwa_eq_formula modules hE] at hq
    have hq' : gradedWeightedSum modules / (gradedEcts modules : ℚ) = q :=
      Option.some.inj hq
    obtain ⟨h1, h2⟩ := bounds_sum modules lo hi hb
    have hEQ : (0 : ℚ) < (gradedEcts modules : ℚ) := by exact_mod_cast hE
    subst hq'
    constructor
    · rw [le_div_iff₀ hEQ]
      exact h1
    · rw [div_le_iff₀ hEQ]
      exact h2

/-- Witness for C8 at the concrete scenario modules with bounds 1.7 and 2.3. -/
theorem weighted_average_bounds_witness :
    (17 / 10 : ℚ) ≤ 2 ∧ (2 : ℚ) ≤ 23 / 10 := by
  refine weighted_average_bounds exampleModules 2 (17 / 10) (23 / 10) exampleModules_avg ?_
  intro m hm g hg
  simp only [exampleModules, List.mem_cons, List.not_mem_nil, or_false] at hm
  rcases hm with rfl | rfl
  · simp only at hg
    injection hg with hg
    subst hg
    norm_num
  · simp only at hg
    injection hg with hg
    subst hg
    norm_num

/-- C9: appending a module without a grade never changes the weighted
average: the loop at src/main.py:221-224 skips modules whose grade is
`None`, so both running sums are unchanged. -/
theorem ungraded_append_invariant (modules : List Module) (u : Module)
    (h : u.grade = none) :
    calculate_weighted_average (modules ++ [u]) = calculate_weighted_average modules := by
  unfold calculate_weighted_average
  rw [List.foldl_append]
  simp [cwaLoop, h]

/-- Witness for C9: appending a concrete ungraded module to the scenario
modules leaves the average unchanged. -/
theorem ungraded_append_invariant_witness :
    calculate_weighted_average (exampleModules ++ [⟨"Praktikum", 5, none⟩]) =
      calculate_weighted_average exampleModules :=
  ungraded_append_invariant exampleModules ⟨"Praktikum", 5, none⟩ rfl

/-- Message at src/main.py:472. -/
def msgOnTrack : String := "Du bist auf einem guten Weg, dein Ziel zu erreichen!"

/-- Message at src/main.py:475. -/
def msgEffort : String :=
  "Du musst dich noch etwas anstrengen, um deine Zielnote zu erreichen."

/-- Message at src/main.py:493. -/
def msgNoGrades : String := "Es gibt noch keine Noten in diesem Semester."

/-- Suffix appended at src/main.py:487. -/
def msgTimeUp : String := " Achtung: Die Zeit für dieses Semester läuft ab!"

/-- Suffix appended at src/main.py:490. -/
def msgDateErr : String := " Fehler beim Berechnen des Zeitfortschritts."

/-- Elapsed fraction of the 180-day window ending at `target_date`
(src/main.py:480-484): `(now - (target_date - 180)) / 180 * 100`. -/
def zeit_prozent (target_date now : ℚ) : ℚ :=
  (now - (target_date - 180)) / 180 * 100

/-- Colour of the progress bar from the css class (src/main.py:497-502). -/
def klasseFarbe (k : String) : String :=
  if k = "ziel-erreicht" then "#4CAF50"
  else if k = "ziel-gefaehrdet" then "#ff9800"
  else "#f44336"

/-- The per-term annotation derived in the dashboard loop:
message, css classification and progress colour. -/
structure TermEval where
  ziel_nachricht : String
  ziel_klasse : String
  fortschritt_farbe : String
deriving DecidableEq

/-- Source: the per-semester evaluation loop body, src/main.py:465-502.
When an average is present the grade check picks the base message and class,
then the time check may escalate to `ziel-verfehlt` (time expired, strictly
more than 100 percent elapsed) or report a malformed target date
(`ValueError` of `strptime`, modelled as `target_date = none`); with no
average the term is `ziel-gefaehrdet` with the no-grades message and no date
handling at all. The colour is derived from the final class
(src/main.py:497-502). -/
def evalTerm (t : Term) (now : ℚ) : TermEval :=
  match calculate_weighted_average t.modules with
  | some avg =>
    let base : String × String :=
      if avg ≤ t.target_grade then (msgOnTrack, "ziel-erreicht")
      else (msgEffort, "ziel-gefaehrdet")
    let res : String × String :=
      match t.target_date with
      | some d =>
        if zeit_prozent d now > 100 then (base.1 ++ msgTimeUp, "ziel-verfehlt")
        else base
      | none => (base.1 ++ msgDateErr, "ziel-verfehlt")
    ⟨res.1, res.2, klasseFarbe res.2⟩
  | none => ⟨msgNoGrades, "ziel-gefaehrdet", klasseFarbe "ziel-gefaehrdet"⟩

/-- C3 counterexample: a term whose target date is malformed but which has
no graded modules is classified `ziel-gefaehrdet` (AtRisk) with the
no-grades message, not `ziel-verfehlt` (Missed): the time check and its
malformed-date branch run only when an average is present
(src/main.py:469). -/
theorem malformed_date_without_average_cex :
    (⟨"Semester 1", none, 2, []⟩ : Term).target_date = none ∧
      evalTerm ⟨"Semester 1", none, 2, []⟩ 0 =
        ⟨msgNoGrades, "ziel-gefaehrdet", "#ff9800"⟩ := by
  constructor
  · rfl
  · rfl

/-- C3 as amended: for every term with a present average whose target date
fails to parse, the evaluation yields classification `ziel-verfehlt`
(Missed) and a message ending in the date-format error suffix. The
embedding is a total function, modelling that the `except ValueError`
branch at src/main.py:489-491 reports the condition instead of raising. -/
theorem malformed_date_missed (t : Term) (now : ℚ) (avg : ℚ)
    (havg : calculate_weighted_average t.modules = some avg)
    (hdate : t.target_date = none) :
    (evalTerm t now).ziel_klasse = "ziel-verfehlt" ∧
      ∃ base : String, (evalTerm t now).ziel_nachricht = base ++ msgDateErr := by
  unfold evalTerm
  rw [havg, hdate]
  by_cases h : avg ≤ t.target_grade
  · exact ⟨by simp [h], ⟨msgOnTrack, by simp [h]⟩⟩
  · exact ⟨by simp [h], ⟨msgEffort, by simp [h]⟩⟩

/-- Witness for the amended C3 at a concrete graded term with a malformed
target date. -/
theorem malformed_date_missed_witness :
    (evalTerm ⟨"Semester 1", none, 2, exampleModules⟩ 0).ziel_klasse = "ziel-verfehlt" ∧
      ∃ base : String,
        (evalTerm ⟨"Semester 1", none, 2, exampleModules⟩ 0).ziel_nachricht =
          base ++ msgDateErr :=
  malformed_date_missed ⟨"Semester 1", none, 2, exampleModules⟩ 0 2
    exampleModules_avg rfl

theorem evalTerm_absent (t : Term) (now : ℚ)
    (h : calculate_weighted_average t.modules = none) :
    evalTerm t now = ⟨msgNoGrades, "ziel-gefaehrdet", "#ff9800"⟩ := by
  unfold evalTerm
  rw [h]
  rfl

theorem evalTerm_klasse_dateErr (t : Term) (now avg : ℚ)
    (h : calculate_weighted_average t.modules = some avg)
    (hd : t.target_date = none) :
    (evalTerm t now).ziel_klasse = "ziel-verfehlt" := by
  unfold evalTerm
  rw [h, hd]

theorem evalTerm_klasse_timeUp (t : Term) (now avg d : ℚ)
    (h : calculate_weighted_average t.modules = some avg)
    (hd : t.target_date = some d) (ht : zeit_prozent d now > 100) :
    (evalTerm t now).ziel_klasse = "ziel-verfehlt" := by
  unfold evalTerm
  rw [h, hd]
  by_cases hg : avg ≤ t.target_grade <;> simp [hg, ht]

theorem evalTerm_klasse_achieved (t : Term) (now avg d : ℚ)
    (h : calculate_weighted_average t.modules = some avg)
    (hg : avg ≤ t.target_grade)
    (hd : t.target_date = some d) (ht : ¬ zeit_prozent d now > 100) :
    (evalTerm t now).ziel_klasse = "ziel-erreicht" := by
  unfold evalTerm
  rw [h, hd]
  simp [hg, ht]

theorem evalTerm_klasse_atRisk (t : Term) (now avg d : ℚ)
    (h : calculate_weighted_average t.modules = some avg)
    (hg : ¬ avg ≤ t.target_grade)
    (hd : t.target_date = some d) (ht : ¬ zeit_prozent d now > 100) :
    (evalTerm t now).ziel_klasse = "ziel-gefaehrdet" := by
  unfold evalTerm
  rw [h, hd]
  simp [hg, ht]

theorem evalTerm_farbe (t : Term) (now : ℚ) :
    (evalTerm t now).fortschritt_farbe = klasseFarbe (evalTerm t now).ziel_klasse := by
  unfold evalTerm
  cases calculate_weighted_average t.modules with
  | none => rfl
  | some avg =>
    cases t.target_date with
    | none => by_cases hg : avg ≤ t.target_grade <;> simp [hg]
    | some d =>
      by_cases hg : avg ≤ t.target_grade <;>
        by_cases ht : zeit_prozent d now > 100 <;> simp [hg, ht]

/-- C4: the evaluation classifies a term `ziel-erreicht` (Achieved) exactly
when an average is present, the average is at most the target grade, and
the target date parses to a date whose 180-day window has elapsed by at
most 100 percent; and the colour mapping is Achieved to green `#4CAF50`,
AtRisk to orange `#ff9800`, Missed to red `#f44336`. -/
theorem achieved_iff_and_colors (t : Term) (now : ℚ) :
    ((evalTerm t now).ziel_klasse = "ziel-erreicht" ↔
        (∃ avg : ℚ, calculate_weighted_average t.modules = some avg ∧
            avg ≤ t.target_grade) ∧
          ∃ d : ℚ, t.target_date = some d ∧ zeit_prozent d now ≤ 100) ∧
      ((evalTerm t now).ziel_klasse = "ziel-erreicht" →
        (evalTerm t now).fortschritt_farbe = "#4CAF50") ∧
      ((evalTerm t now).ziel_klasse = "ziel-gefaehrdet" →
        (evalTerm t now).fortschritt_farbe = "#ff9800") ∧
      ((evalTerm t now).ziel_klasse = "ziel-verfehlt" →
        (evalTerm t now).fortschritt_farbe = "#f44336") := by
  refine ⟨?_, ?_, ?_, ?_⟩
  · constructor
    · intro hk
      cases h : calculate_weighted_average t.modules with
      | none =>
        rw [evalTerm_absent t now h] at hk
        exact absurd hk (by decide)
      | some avg =>
        cases hd : t.target_date with
        | none =>
          rw [evalTerm_klasse_dateErr t now avg h hd] at hk
          exact absurd hk (by decide)
        | some d =>
          by_cases ht : zeit_prozent d now > 100
          · rw [evalTerm_klasse_timeUp t now avg d h hd ht] at hk
            exact absurd hk (by decide)
          · by_cases hg : avg ≤ t.target_grade
            · exact ⟨⟨avg, rfl, hg⟩, ⟨d, rfl, not_lt.mp ht⟩⟩
            · rw [evalTerm_klasse_atRisk t now avg d h hg hd ht] at hk
              exact absurd hk (by decide)
    · rintro ⟨⟨avg, h, hg⟩, ⟨d, hd, ht⟩⟩
      exact evalTerm_klasse_achieved t now avg d h hg hd (not_lt.mpr ht)
  · intro hk
    rw [evalTerm_farbe, hk]
    rfl
  · intro hk
    rw [evalTerm_farbe, hk]
    rfl
  · intro hk
    rw [evalTerm_farbe, hk]
    rfl

/-- Witness for C4: the scenario term with target grade 2.0 and average 2.0
and an unexpired window is classified Achieved with the green colour. -/
theorem achieved_iff_and_colors_witness :
    (evalTerm ⟨"Semester 1", some 1000, 2, exampleModules⟩ 900).ziel_klasse =
        "ziel-erreicht" ∧
      (evalTerm ⟨"Semester 1", some 1000, 2, exampleModules⟩ 900).fortschritt_farbe =
        "#4CAF50" := by
  have h := achieved_iff_and_colors ⟨"Semester 1", some 1000, 2, exampleModules⟩ 900
  have hk : (evalTerm ⟨"Semester 1", some 1000, 2, exampleModules⟩ 900).ziel_klasse =
      "ziel-erreicht" :=
    h.1.mpr ⟨⟨2, exampleModules_avg, le_refl 2⟩, ⟨1000, rfl, by norm_num [zeit_prozent]⟩⟩
  exact ⟨hk, h.2.1 hk⟩

/-- The completion flash event of src/main.py:561-562 and 566-567, carrying
the semester name and the average rounded to two decimals (the `:.2f`
format of the flash text). -/
structure Notification where
  termName : String
  averageRounded : ℚ
deriving DecidableEq

/-- Rounding to two decimal places, modelling the `:.2f` format. -/
def round2 (q : ℚ) : ℚ := ((round (q * 100) : ℤ) : ℚ) / 100

/-- Result of one completion-check iteration: the new stored flag, the
success notifications emitted, and whether the malformed-date danger flash
(src/main.py:552-554) fired. -/
structure CompletionResult where
  flag : Bool
  notifs : List Notification
  dateError : Bool
deriving DecidableEq

/-- Every module of the term carries a grade (src/main.py:564). -/
def allGraded (t : Term) : Bool := t.modules.all (fun m => m.grade.isSome)

/-- Source: one iteration of the completion loop, src/main.py:547-571, for
one semester. `flag` is the stored value of
`session[f"semester_{id}_abgeschlossen"]`. With no average nothing happens;
with a malformed target date the danger flash fires and the iteration is
skipped by `continue`; otherwise, past `target_date + 30` days or with all
modules graded, a notification fires if the flag is unset and the flag is
set; in the remaining case the flag is reset to `False`
(src/main.py:569-571). -/
def completionStep (t : Term) (flag : Bool) (now : ℚ) : CompletionResult :=
  match calculate_weighted_average t.modules with
  | none => ⟨flag, [], false⟩
  | some avg =>
    match t.target_date with
    | none => ⟨flag, [], true⟩
    | some d =>
      if now > d + 30 then
        if flag then ⟨flag, [], false⟩ else ⟨true, [⟨t.name, round2 avg⟩], false⟩
      else if allGraded t then
        if flag then ⟨flag, [], false⟩ else ⟨true, [⟨t.name, round2 avg⟩], false⟩
      else ⟨false, [], false⟩

/-- A single fully graded module of weight 6 and grade 2.0. -/
def cexModules : List Module := [⟨"Mathematik 1", 6, some 2⟩]

theorem cexModules_avg : calculate_weighted_average cexModules = some 2 := by
  rw [cwa_eq_formula cexModules (by decide)]
  simp only [cexModules, gradedWeightedSum, gradedEcts, gradedModules,
    List.filter_cons, List.filter_nil, Option.isSome_some, if_pos, List.map_cons,
    List.map_nil, List.sum_cons, List.sum_nil, Option.getD_some]
  norm_num

/-- C1 counterexample: a term with a present average, a malformed target
date, the stored flag false and every module graded satisfies the claimed
transition condition through its second disjunct, yet the code emits no
notification and leaves the flag false: the `continue` at src/main.py:555
skips the all-graded check whenever the date fails to parse. -/
theorem completion_skips_malformed_date_cex :
    calculate_weighted_average
        (⟨"Semester 1", none, 2, cexModules⟩ : Term).modules = some 2 ∧
      allGraded ⟨"Semester 1", none, 2, cexModules⟩ = true ∧
      completionStep ⟨"Semester 1", none, 2, cexModules⟩ false 0 =
        ⟨false, [], true⟩ := by
  refine ⟨cexModules_avg, rfl, ?_⟩
  unfold completionStep
  rw [show (⟨"Semester 1", none, 2, cexModules⟩ : Term).modules = cexModules from rfl,
    cexModules_avg]

/-- C1 as amended: for every term with a present average and a target date
that parses, when the stored flag is false and the transition condition
(`now > target_date + 30` or all modules graded) holds, the step emits
exactly one notification carrying the term name and the rounded average and
sets the flag true; and whenever the stored flag is true, the step emits no
notification whatever the term. -/
theorem completion_notifies_once (t : Term) (flag : Bool) (now : ℚ) :
    (∀ avg d : ℚ, calculate_weighted_average t.modules = some avg →
        t.target_date = some d → flag = false →
        (now > d + 30 ∨ allGraded t = true) →
        completionStep t flag now = ⟨true, [⟨t.name, round2 avg⟩], false⟩) ∧
      (flag = true → (completionStep t flag now).notifs = []) := by
  constructor
  · intro avg d havg hd hflag hcond
    subst hflag
    unfold completionStep
    rw [havg, hd]
    rcases hcond with h30 | hall
    · simp [h30]
    · by_cases h30 : now > d + 30
      · simp [h30]
      · simp [h30, hall]
  · intro hflag
    subst hflag
    unfold completionStep
    cases calculate_weighted_average t.modules with
    | none => rfl
    | some avg =>
      cases t.target_date with
      | none => rfl
      | some d =>
        by_cases h30 : now > d + 30
        · simp [h30]
        · by_cases hall : allGraded t = true
          · simp [h30, hall]
          · simp [h30, hall]

/-- Witness for the amended C1: the fully graded concrete term with flag
false produces exactly one notification and the flag is set. -/
theorem completion_notifies_once_witness :
    completionStep ⟨"Semester 1", some 1000, 2, cexModules⟩ false 0 =
      ⟨true, [⟨"Semester 1", round2 2⟩], false⟩ :=
  (completion_notifies_once ⟨"Semester 1", some 1000, 2, cexModules⟩ false 0).1
    2 1000 cexModules_avg rfl rfl (Or.inr rfl)

/-- A term with one graded and one ungraded module: its average is present
but the all-graded disjunct fails. -/
def partialModules : List Module :=
  [⟨"Mathematik 1", 6, some 2⟩, ⟨"Informatik 1", 6, none⟩]

theorem partialModules_avg : calculate_weighted_average partialModules = some 2 := by
  rw [cwa_eq_formula partialModules (by decide)]
  simp only [partialModules, gradedWeightedSum, gradedEcts, gradedModules,
    List.filter_cons, List.filter_nil, Option.isSome_some, Option.isSome_none,
    if_pos, Bool.false_eq_true, if_neg, List.map_cons, List.map_nil,
    List.sum_cons, List.sum_nil, Option.getD_some]
  norm_num

/-- C2 exhibits a code bug: at src/main.py:569-571 the completion loop
resets the stored flag to `False` whenever the completion condition does
not currently hold, even if the flag was already true. Concretely, a term
with flag true, a present average, an unexpired deadline and an ungraded
module has its flag lowered back to false by one evaluation — the per-term
state machine is not terminal, contradicting the spec, which calls this
behaviour "a bug to avoid, not behavior to reproduce". -/
theorem completion_flag_reset_bug :
    completionStep ⟨"Semester 2", some 1000, 2, partialModules⟩ true 500 =
      ⟨false, [], false⟩ := by
  have h30 : ¬ (500 : ℚ) > 1000 + 30 := by norm_num
  have hall : allGraded ⟨"Semester 2", some 1000, 2, partialModules⟩ = false := rfl
  unfold completionStep
  rw [show (⟨"Semester 2", some 1000, 2, partialModules⟩ : Term).modules =
        partialModules from rfl,
    partialModules_avg]
  rw [show (⟨"Semester 2", some 1000, 2, partialModules⟩ : Term).target_date =
        some 1000 from rfl]
  simp [h30, hall]

/-- C10: a term with no computable average is always annotated AtRisk with
the orange colour and the no-grades message regardless of its target date,
and the completion iteration leaves the stored flag untouched and emits
neither a notification nor a malformed-date report (the guards at
src/main.py:469 and src/main.py:548 both test `average is not None`). -/
theorem absent_average_at_risk_no_completion (t : Term) (flag : Bool) (now : ℚ)
    (h : calculate_weighted_average t.modules = none) :
    evalTerm t now = ⟨msgNoGrades, "ziel-gefaehrdet", "#ff9800"⟩ ∧
      completionStep t flag now = ⟨flag, [], false⟩ := by
  refine ⟨evalTerm_absent t now h, ?_⟩
  unfold completionStep
  rw [h]

/-- Witness for C10 at a concrete ungraded term with a malformed date and
the flag initially true. -/
theorem absent_average_at_risk_no_completion_witness :
    evalTerm ⟨"Semester 1", none, 2, [⟨"Mathematik 1", 6, none⟩]⟩ 0 =
        ⟨msgNoGrades, "ziel-gefaehrdet", "#ff9800"⟩ ∧
      completionStep ⟨"Semester 1", none, 2, [⟨"Mathematik 1", 6, none⟩]⟩ true 0 =
        ⟨true, [], false⟩ := by
  have h := absent_average_at_risk_no_completion
    ⟨"Semester 1", none, 2, [⟨"Mathematik 1", 6, none⟩]⟩ true 0
    (cwa_eq_none [⟨"Mathematik 1", 6, none⟩] rfl)
  exact ⟨h.1, h.2⟩

/-- Python `int()` applied to an exact rational: truncation toward zero. -/
def pyInt (q : ℚ) : ℤ := if 0 ≤ q then ⌊q⌋ else ⌈q⌉

/-- Source: the overall progress percentage, src/main.py:507-518. 100 when
the goal is achieved, `int(overall_target_grade / total_average * 100)`
when not achieved and the average is positive, otherwise 0 (also 0 when no
average exists: `overall_fortschritt_prozent` keeps its initialiser). -/
def overall_fortschritt_prozent (total_average : Option ℚ)
    (overall_target_grade : ℚ) : ℤ :=
  match total_average with
  | none => 0
  | some ta =>
    if ta ≤ overall_target_grade then 100
    else if 0 < ta then pyInt (overall_target_grade / ta * 100) else 0

/-- C7 counterexample: with overall average 3 (present and strictly above
the target grade −1/2, and positive), Python `int()` truncates
−50/3 toward zero giving −16, while the claimed floor is −17. -/
theorem percent_not_floor_cex :
    (-(1 / 2) : ℚ) < 3 ∧
      overall_fortschritt_prozent (some 3) (-(1 / 2)) = -16 ∧
      ⌊((-(1 / 2) : ℚ) / 3 * 100)⌋ = -17 := by
  have hval : ((-(1 / 2) : ℚ) / 3 * 100) = -50 / 3 := by norm_num
  have h1 : ¬ (3 : ℚ) ≤ -(1 / 2) := by norm_num
  have h2 : (0 : ℚ) < 3 := by norm_num
  have h3 : ¬ (0 : ℚ) ≤ (-(1 / 2) : ℚ) / 3 * 100 := by norm_num
  refine ⟨by norm_num, ?_, ?_⟩
  · unfold overall_fortschritt_prozent pyInt
    simp only [h1, h2, h3, if_true, if_false, ite_false, ite_true]
    rw [hval, Int.ceil_eq_iff]
    constructor <;> norm_num
  · rw [hval, Int.floor_eq_iff]
    constructor <;> norm_num

/-- C7 as amended: when the overall average is present, strictly above the
target grade and positive, the progress percentage is the truncation toward
zero of `target_grade / average × 100` (exact rational arithmetic), which
coincides with the floor whenever the target grade is nonnegative; when the
average is not positive the percentage is 0. -/
theorem percent_truncation (ta tg : ℚ) (h : tg < ta) :
    (0 < ta →
        overall_fortschritt_prozent (some ta) tg = pyInt (tg / ta * 100) ∧
          (0 ≤ tg →
            overall_fortschritt_prozent (some ta) tg = ⌊tg / ta * 100⌋)) ∧
      (ta ≤ 0 → overall_fortschritt_prozent (some ta) tg = 0) := by
  have hne : ¬ ta ≤ tg := not_le.mpr h
  constructor
  · intro hta
    have heq : overall_fortschritt_prozent (some ta) tg = pyInt (tg / ta * 100) := by
      unfold overall_fortschritt_prozent
      simp [hne, hta]
    refine ⟨heq, fun htg => ?_⟩
    rw [heq]
    unfold pyInt
    rw [if_pos (mul_nonneg (div_nonneg htg hta.le) (by norm_num))]
  · intro hta
    unfold overall_fortschritt_prozent
    simp [hne, not_lt.mpr hta]

/-- Witness for the amended C7 at average 3 and target grade 2. -/
theorem percent_truncation_witness :
    overall_fortschritt_prozent (some 3) 2 = ⌊((2 : ℚ) / 3 * 100)⌋ :=
  ((percent_truncation 3 2 (by norm_num)).1 (by norm_num)).2 (by norm_num)

end Notendashboard
